import Mathlib

/-!
Verification development for the ResqFood donation backend (src/main.py,
src/schemas.py). The donation lifecycle operations (create, list, update,
claim, deliver) are embedded shallowly: the MongoDB document store (the
external `database` module, not under src/) is modelled as an in-memory
association list keyed by the document id, datetimes are modelled as natural
numbers, and each handler becomes a pure function threading the store state
explicitly and returning `Except HTTPException` for the `raise HTTPException`
paths.
-/

/-- A user document in the `user` collection (schemas.py, class User).
Only the fields the donation lifecycle reads are carried. -/
structure User where
  name : String
  email : String
  role : String
deriving DecidableEq

/-- A donation document in the `donation` collection (schemas.py, class
Donation; main.py create_donation builds exactly these fields plus the id). -/
structure Donation where
  food_item : String
  quantity : String
  pickup_address : String
  expiry_time : Nat
  restaurant_id : String
  restaurant_name : String
  status : String
  claimed_by : Option String
  claimed_by_id : Option String
  created_at : Nat
  updated_at : Nat
deriving DecidableEq

/-- The document store: the two collections used by the donation lifecycle,
each an association list from document id to document. `find_one` on an id
returns the first (unique) match; `update_one` with a `$set` rewrites the
first match in place. -/
structure DB where
  users : List (String × User)
  donations : List (String × Donation)
deriving DecidableEq

/-- find_one on the primary key: first document whose id equals `key`. -/
def findDoc {α : Type} (l : List (String × α)) (key : String) : Option α :=
  match l with
  | [] => none
  | kv :: rest => if kv.1 = key then some kv.2 else findDoc rest key

/-- update_one with a `$set`: rewrite the first document whose id equals
`key`, leave the rest untouched (no match means no change). -/
def updateFirst {α : Type} (key : String) (f : α → α) (l : List (String × α)) :
    List (String × α) :=
  match l with
  | [] => []
  | kv :: rest =>
    if kv.1 = key then (kv.1, f kv.2) :: rest else kv :: updateFirst key f rest

/-- An HTTPException raised by a handler (fastapi HTTPException). -/
structure HTTPException where
  status_code : Nat
  detail : String
deriving DecidableEq

/-- claim_donation line 243: the `InvalidClaimer` error of the spec. -/
def invalidClaimerExc : HTTPException := ⟨400, "Invalid claimer"⟩

/-- Lines 226/247/267: the `NotFound` error of the spec. -/
def donationNotFoundExc : HTTPException := ⟨404, "Donation not found"⟩

/-- claim_donation line 249: the `InvalidState` error of the spec. -/
def notAvailableExc : HTTPException := ⟨400, "Donation not available"⟩

/-- create_donation line 172: the `InvalidReference` error of the spec. -/
def invalidRestaurantExc : HTTPException := ⟨400, "Invalid restaurant user"⟩

/-- Request body of POST /donations (DonationCreateRequest). -/
structure DonationCreateRequest where
  food_item : String
  quantity : String
  pickup_address : String
  expiry_time : Nat
  restaurant_id : String
  restaurant_name : String
deriving DecidableEq

/-- Request body of PATCH /donations/id (DonationUpdateRequest): every field
optional, `none` both for an absent field and for an explicit null (pydantic
model_dump makes the two indistinguishable). -/
structure DonationUpdateRequest where
  food_item : Option String
  quantity : Option String
  pickup_address : Option String
  expiry_time : Option Nat
deriving DecidableEq

/-- The role literal of ClaimRequest: pydantic restricts it to the two
lowercase strings "ngo" and "society". -/
inductive ClaimRole where
  | ngo : ClaimRole
  | society : ClaimRole
deriving DecidableEq

/-- The string value carried by the role literal. -/
def ClaimRole.str : ClaimRole → String
  | ClaimRole.ngo => "ngo"
  | ClaimRole.society => "society"

/-- Request body of POST /donations/id/claim (ClaimRequest). -/
structure ClaimRequest where
  user_id : String
  user_name : String
  role : ClaimRole
deriving DecidableEq

/-- Python str.capitalize: first character uppercased, the rest lowercased. -/
def pyCapitalize (s : String) : String :=
  match s.data with
  | [] => s
  | c :: cs => String.mk (Char.toUpper c :: cs.map Char.toLower)

/-- POST /donations (create_donation, main.py lines 167-190): requires the
referenced user to exist with role "restaurant", then inserts a fresh
document with status "available" and null claim fields. `newId` is the
store-assigned id and `now` the value of datetime.utcnow(). -/
def create_donation (db : DB) (req : DonationCreateRequest) (newId : String)
    (now : Nat) : Except HTTPException (DB × Donation) :=
  match findDoc db.users req.restaurant_id with
  | none => Except.error invalidRestaurantExc
  | some restaurant =>
    if restaurant.role ≠ "restaurant" then Except.error invalidRestaurantExc
    else
      let donation : Donation :=
        { food_item := req.food_item
          quantity := req.quantity
          pickup_address := req.pickup_address
          expiry_time := req.expiry_time
          restaurant_id := req.restaurant_id
          restaurant_name := req.restaurant_name
          status := "available"
          claimed_by := none
          claimed_by_id := none
          created_at := now
          updated_at := now }
      Except.ok ({ db with donations := db.donations ++ [(newId, donation)] },
                 donation)

/-- update_donation line 220: true when the request carries no non-null
field, so the `updates` dict is empty. -/
def noUpdates (req : DonationUpdateRequest) : Bool :=
  req.food_item.isNone && req.quantity.isNone &&
    req.pickup_address.isNone && req.expiry_time.isNone

/-- The `$set` of update_donation lines 220-224: each non-null request field
overwrites the stored one, null fields leave it untouched, and updated_at is
set to now. -/
def applyUpdates (req : DonationUpdateRequest) (now : Nat) (d : Donation) :
    Donation :=
  { d with
    food_item := req.food_item.getD d.food_item
    quantity := req.quantity.getD d.quantity
    pickup_address := req.pickup_address.getD d.pickup_address
    expiry_time := req.expiry_time.getD d.expiry_time
    updated_at := now }

/-- PATCH /donations/id (update_donation, main.py lines 218-227). With an
empty updates dict the handler returns find_one's result directly (possibly
null) and performs no write; otherwise it writes the `$set` and raises 404
when no document matched. -/
def update_donation (db : DB) (donation_id : String)
    (req : DonationUpdateRequest) (now : Nat) :
    Except HTTPException (DB × Option Donation) :=
  if noUpdates req then Except.ok (db, findDoc db.donations donation_id)
  else
    match findDoc db.donations donation_id with
    | none => Except.error donationNotFoundExc
    | some _ =>
      let db' : DB :=
        { db with donations :=
            updateFirst donation_id (applyUpdates req now) db.donations }
      Except.ok (db', findDoc db'.donations donation_id)

/-- claim_donation lines 241-243: the claimer check. True when user_id
resolves to a user whose role is "ngo" or "society". -/
def claimerOk (db : DB) (user_id : String) : Bool :=
  match findDoc db.users user_id with
  | none => false
  | some u => u.role = "ngo" || u.role = "society"

/-- The read/check half of claim_donation (lines 241-249): the three guards
in source order, each returning its HTTPException; `none` means all passed. -/
def claimCheck (db : DB) (donation_id : String) (req : ClaimRequest) :
    Option HTTPException :=
  if !claimerOk db req.user_id then some invalidClaimerExc
  else
    match findDoc db.donations donation_id with
    | none => some donationNotFoundExc
    | some donation =>
      if donation.status ≠ "available" then some notAvailableExc else none

/-- The claimed_by label of claim_donation line 255, the f-string
built from role.capitalize() and user_name. -/
def claimedLabel (req : ClaimRequest) : String :=
  pyCapitalize req.role.str ++ ": " ++ req.user_name

/-- The write half of claim_donation (lines 251-259): an update_one matching
on _id only — unconditional in the current status — setting the claim
fields. -/
def claimWrite (db : DB) (donation_id : String) (req : ClaimRequest)
    (now : Nat) : DB :=
  { db with donations :=
      updateFirst donation_id (fun d =>
        { d with
          status := "claimed"
          claimed_by := some (claimedLabel req)
          claimed_by_id := some req.user_id
          updated_at := now }) db.donations }

/-- POST /donations/id/claim (claim_donation, main.py lines 238-260):
the checks, then the write, then find_one for the response body. -/
def claim_donation (db : DB) (donation_id : String) (req : ClaimRequest)
    (now : Nat) : Except HTTPException (DB × Option Donation) :=
  match claimCheck db donation_id req with
  | some e => Except.error e
  | none =>
    let db' := claimWrite db donation_id req now
    Except.ok (db', findDoc db'.donations donation_id)

/-- The write of mark_delivered (lines 269-272): set status "delivered" and
updated_at, matching on _id only. -/
def deliverWrite (db : DB) (donation_id : String) (now : Nat) : DB :=
  { db with donations :=
      updateFirst donation_id (fun d =>
        { d with status := "delivered", updated_at := now }) db.donations }

/-- POST /donations/id/deliver (mark_delivered, main.py lines 263-273):
404 when the donation does not exist, otherwise the write and find_one. The
request body (DeliverRequest) is unused by the handler. -/
def mark_delivered (db : DB) (donation_id : String) (now : Nat) :
    Except HTTPException (DB × Option Donation) :=
  match findDoc db.donations donation_id with
  | none => Except.error donationNotFoundExc
  | some _ =>
    let db' := deliverWrite db donation_id now
    Except.ok (db', findDoc db'.donations donation_id)

/-- The filter dict built by list_donations (lines 200-212): the "status" and
"restaurant_id" keys and the `$or` regex clause, `none` when the key is
absent. -/
structure DonationFilter where
  status : Option String
  restaurant_id : Option String
  search : Option String
deriving DecidableEq

/-- list_donations lines 200-212, in source order: `if status:` sets the
status key, `if restaurant_id:` the restaurant_id key, `if exclude_claimed:`
overwrites the status key with "available", `if search:` adds the `$or`
regex clause. Python truthiness makes the empty string count as absent. -/
def build_filter (status : Option String) (restaurant_id : Option String)
    (exclude_claimed : Bool) (search : Option String) : DonationFilter :=
  let f : DonationFilter := ⟨none, none, none⟩
  let f := match status with
    | some s => if s = "" then f else { f with status := some s }
    | none => f
  let f := match restaurant_id with
    | some r => if r = "" then f else { f with restaurant_id := some r }
    | none => f
  let f := if exclude_claimed then { f with status := some "available" } else f
  let f := match search with
    | some s => if s = "" then f else { f with search := some s }
    | none => f
  f

/-- A token of the modelled regular-expression fragment: a literal character
or the dot wildcard. -/
inductive RTok where
  | lit : Char → RTok
  | dot : RTok
deriving DecidableEq

/-- PCRE metacharacters other than the dot. A pattern containing one of
these is outside the modelled fragment. -/
def pcreMeta : List Char :=
  ['\\', '^', '$', '*', '+', '?', '(', ')', '[', ']', '\x7b', '\x7d', '|']

/-- Parse one pattern character of the modelled fragment. -/
def parseTok (c : Char) : Option RTok :=
  if c = '.' then some RTok.dot
  else if pcreMeta.contains c then none
  else some (RTok.lit c)

/-- Parse a whole pattern; `none` when any character is an unmodelled
metacharacter. -/
def parseToks : List Char → Option (List RTok)
  | [] => some []
  | c :: cs =>
    match parseTok c, parseToks cs with
    | some t, some ts => some (t :: ts)
    | _, _ => none

/-- Whether a pattern token matches one text character, case-insensitively
(the `$options: "i"` of the source). -/
def tokMatches : RTok → Char → Bool
  | RTok.lit c, x => c.toLower = x.toLower
  | RTok.dot, _ => true

/-- Whether the token list matches a prefix of the text. -/
def matchHere : List RTok → List Char → Bool
  | [], _ => true
  | _ :: _, [] => false
  | t :: ts, c :: cs => tokMatches t c && matchHere ts cs

/-- Whether the token list matches starting at some position of the text. -/
def matchSomewhere (p : List RTok) : List Char → Bool
  | [] => matchHere p []
  | c :: cs => matchHere p (c :: cs) || matchSomewhere p cs

/-- Modelled from the spec: the MongoDB `$regex` operator with
`$options: "i"` used by list_donations lines 208-212 — the store that
executes it (the `database` module) is not under src/. A document field
matches when the pattern, read as a case-insensitive regular expression,
matches at some position of the field. Only patterns built from literal
characters and the dot wildcard are modelled; for a pattern using another
PCRE metacharacter this function is not meaningful (it returns false), and
every theorem below that touches search assumes the pattern parses. -/
def mongoRegexI (pat text : String) : Bool :=
  match parseToks pat.data with
  | some p => matchSomewhere p text.data
  | none => false

/-- The `$or` regex clause of list_donations lines 208-212: the pattern
against food_item, restaurant_name and pickup_address. -/
def searchMatches (s : String) (d : Donation) : Bool :=
  mongoRegexI s d.food_item || mongoRegexI s d.restaurant_name ||
    mongoRegexI s d.pickup_address

/-- MongoDB find with the filter dict: top-level keys combine by logical
AND; an absent key imposes nothing. -/
def matchesFilter (f : DonationFilter) (d : Donation) : Bool :=
  (match f.status with | none => true | some s => d.status = s) &&
  (match f.restaurant_id with | none => true | some r => d.restaurant_id = r) &&
  (match f.search with | none => true | some s => searchMatches s d)

/-- Insert a donation into a list sorted by created_at descending. -/
def insertByCreated (d : Donation) : List Donation → List Donation
  | [] => [d]
  | e :: rest =>
    if e.created_at ≤ d.created_at then d :: e :: rest
    else e :: insertByCreated d rest

/-- The `.sort("created_at", -1)` of list_donations line 214: most recent
first. -/
def sortByCreatedDesc : List Donation → List Donation
  | [] => []
  | d :: rest => insertByCreated d (sortByCreatedDesc rest)

/-- GET /donations (list_donations, main.py lines 193-215): build the
filter, select the matching documents, sort by created_at descending.
serialize_doc only reformats ids and datetimes and is dropped. -/
def list_donations (db : DB) (status : Option String)
    (restaurant_id : Option String) (exclude_claimed : Bool)
    (search : Option String) : List Donation :=
  let filt := build_filter status restaurant_id exclude_claimed search
  sortByCreatedDesc ((db.donations.map Prod.snd).filter
    (fun d => matchesFilter filt d))

/-- Case-insensitive character-list prefix test. -/
def hasPrefixCh : List Char → List Char → Bool
  | [], _ => true
  | _ :: _, [] => false
  | a :: xs, b :: ys => (a = b) && hasPrefixCh xs ys

/-- Character-list containment at some position. -/
def hasSubCh (n : List Char) : List Char → Bool
  | [] => hasPrefixCh n []
  | c :: cs => hasPrefixCh n (c :: cs) || hasSubCh n cs

/-- From the spec's words (§4.2 rule 4): "case-insensitive substring match".
The needle occurs as a substring of the haystack after lowercasing both.
Stated from the spec, for comparison with the source's regex semantics. -/
def specContainsCI (needle hay : String) : Bool :=
  hasSubCh (needle.data.map Char.toLower) (hay.data.map Char.toLower)

/-- A search string free of every regex metacharacter: no dot and nothing
from pcreMeta. -/
def metaFree (s : String) : Bool :=
  s.data.all (fun c => !(c = '.') && !(pcreMeta.contains c))

/-- One donation-lifecycle operation of the API, as a step on the store:
a successful create, update, claim or deliver call. create's id is
store-assigned and fresh. -/
inductive Step : DB → DB → Prop where
  | create (db db' : DB) (req : DonationCreateRequest) (newId : String)
      (now : Nat) (d : Donation) :
      findDoc db.donations newId = none →
      create_donation db req newId now = Except.ok (db', d) → Step db db'
  | update (db db' : DB) (id : String) (req : DonationUpdateRequest)
      (now : Nat) (r : Option Donation) :
      update_donation db id req now = Except.ok (db', r) → Step db db'
  | claim (db db' : DB) (id : String) (req : ClaimRequest) (now : Nat)
      (r : Option Donation) :
      claim_donation db id req now = Except.ok (db', r) → Step db db'
  | deliver (db db' : DB) (id : String) (now : Nat) (r : Option Donation) :
      mark_delivered db id now = Except.ok (db', r) → Step db db'

/-- Reachability by any finite sequence of create, update, claim and
deliver operations. -/
inductive Reach : DB → DB → Prop where
  | refl (db : DB) : Reach db db
  | tail (db1 db2 db3 : DB) : Reach db1 db2 → Step db2 db3 → Reach db1 db3

/-- The claim-field invariant in the direction that does hold: an available
donation has both claim fields null. -/
def availNulls (d : Donation) : Prop :=
  d.status = "available" → d.claimed_by = none ∧ d.claimed_by_id = none

/-- The invariant over the whole donation collection. -/
def donationsInv (db : DB) : Prop :=
  ∀ kd ∈ db.donations, availNulls kd.2

/-- A restaurant user for concrete runs. -/
def userRest : User := ⟨"Resto", "resto@example.com", "restaurant"⟩

/-- An NGO user for concrete runs. -/
def userNgo : User := ⟨"Helpers Inc", "helpers@example.com", "ngo"⟩

/-- A second NGO user for concrete runs. -/
def userNgo2 : User := ⟨"Second Helpers", "second@example.com", "ngo"⟩

/-- The create request used in concrete runs. -/
def reqCreate : DonationCreateRequest :=
  ⟨"Rice", "10kg", "1 Main St", 100, "r1", "Resto"⟩

/-- The donation produced by reqCreate at time 10. -/
def dAvail : Donation :=
  ⟨"Rice", "10kg", "1 Main St", 100, "r1", "Resto", "available", none, none,
    10, 10⟩

/-- dAvail after mark_delivered at time 20. -/
def dDelivered : Donation :=
  { dAvail with status := "delivered", updated_at := 20 }

/-- A store with one restaurant, two NGO users and no donations. -/
def db0 : DB := ⟨[("r1", userRest), ("u1", userNgo), ("u2", userNgo2)], []⟩

/-- db0 after create_donation put dAvail under id "d1". -/
def dbAvail : DB := { db0 with donations := [("d1", dAvail)] }

/-- dbAvail after mark_delivered on "d1" at time 20. -/
def dbDelivered : DB := { db0 with donations := [("d1", dDelivered)] }

/-- The all-null update request (every field absent). -/
def reqEmpty : DonationUpdateRequest := ⟨none, none, none, none⟩

/-- An update request supplying only food_item. -/
def reqFood : DonationUpdateRequest := ⟨some ("Bread"), none, none, none⟩

/-- A claim request by NGO user u1. -/
def reqClaim : ClaimRequest := ⟨"u1", "Helpers Inc", ClaimRole.ngo⟩

/-- dAvail after reqClaim succeeded at time 30. -/
def dClaimed : Donation :=
  { dAvail with
    status := "claimed"
    claimed_by := some ("Ngo: Helpers Inc")
    claimed_by_id := some ("u1")
    updated_at := 30 }

/-- dbAvail after reqClaim was applied to "d1" at time 30. -/
def dbClaimed : DB := { db0 with donations := [(("d1"), dClaimed)] }

/-- A competing claim request by the second NGO user u2. -/
def reqClaim2 : ClaimRequest := ⟨"u2", "Second Helpers", ClaimRole.ngo⟩

/-- dAvail after the reqFood update at time 50. -/
def dFood : Donation := { dAvail with food_item := "Bread", updated_at := 50 }

/-- dbAvail after the reqFood update on "d1" at time 50. -/
def dbFood : DB := { db0 with donations := [(("d1"), dFood)] }

/-- Looking up the updated key after updateFirst sees the function applied. -/
theorem findDoc_updateFirst_same {α : Type} (key : String) (f : α → α)
    (l : List (String × α)) :
    findDoc (updateFirst key f l) key = (findDoc l key).map f := by
  induction l with
  | nil => simp [findDoc, updateFirst]
  | cons kv rest ih =>
    by_cases h : kv.1 = key
    · simp [findDoc, updateFirst, h]
    · simp [findDoc, updateFirst, h, ih]

/-- Looking up any other key after updateFirst is unchanged. -/
theorem findDoc_updateFirst_other {α : Type} (key k : String) (f : α → α)
    (l : List (String × α)) (hne : k ≠ key) :
    findDoc (updateFirst key f l) k = findDoc l k := by
  induction l with
  | nil => simp [findDoc, updateFirst]
  | cons kv rest ih =>
    by_cases h : kv.1 = key
    · have h2 : key ≠ k := fun he => hne he.symm
      simp [findDoc, updateFirst, h, h2]
    · simp [findDoc, updateFirst, h, ih]

/-- Every entry of updateFirst is an original entry or an original entry
with the function applied to its value. -/
theorem mem_updateFirst {α : Type} (key : String) (f : α → α)
    (l : List (String × α)) (x : String × α) (hx : x ∈ updateFirst key f l) :
    x ∈ l ∨ ∃ y, y ∈ l ∧ x = (y.1, f y.2) := by
  induction l with
  | nil => simp [updateFirst] at hx
  | cons kv rest ih =>
    by_cases h : kv.1 = key
    · simp [updateFirst, h] at hx
      rcases hx with hx | hx
      · refine Or.inr ⟨kv, List.mem_cons_self kv rest, ?_⟩
        rw [h]
        exact hx
      · exact Or.inl (List.mem_cons_of_mem kv hx)
    · simp [updateFirst, h] at hx
      rcases hx with hx | hx
      · exact Or.inl (hx ▸ List.mem_cons_self kv rest)
      · rcases ih hx with hmem | ⟨y, hy, hxy⟩
        · exact Or.inl (List.mem_cons_of_mem kv hmem)
        · exact Or.inr ⟨y, List.mem_cons_of_mem kv hy, hxy⟩

/-- Membership in insertByCreated is insertion plus the old members. -/
theorem mem_insertByCreated (d x : Donation) (l : List Donation) :
    x ∈ insertByCreated d l ↔ x = d ∨ x ∈ l := by
  induction l with
  | nil => simp [insertByCreated]
  | cons e rest ih =>
    by_cases h : e.created_at ≤ d.created_at
    · simp [insertByCreated, h]
    · simp [insertByCreated, h, ih]
      tauto

/-- Sorting by created_at keeps exactly the members. -/
theorem mem_sortByCreatedDesc (x : Donation) (l : List Donation) :
    x ∈ sortByCreatedDesc l ↔ x ∈ l := by
  induction l with
  | nil => simp [sortByCreatedDesc]
  | cons d rest ih =>
    simp [sortByCreatedDesc, mem_insertByCreated, ih]

/-- An all-literal pattern matches a prefix exactly when the lowered pattern
is a prefix of the lowered text. -/
theorem matchHere_lit (xs : List Char) (t : List Char) :
    matchHere (xs.map RTok.lit) t =
      hasPrefixCh (xs.map Char.toLower) (t.map Char.toLower) := by
  induction xs generalizing t with
  | nil => simp [matchHere, hasPrefixCh]
  | cons x xs ih =>
    cases t with
    | nil => simp [matchHere, hasPrefixCh]
    | cons c cs => simp [matchHere, hasPrefixCh, tokMatches, ih]

/-- An all-literal pattern matches somewhere exactly when the lowered
pattern occurs in the lowered text. -/
theorem matchSomewhere_lit (xs : List Char) (t : List Char) :
    matchSomewhere (xs.map RTok.lit) t =
      hasSubCh (xs.map Char.toLower) (t.map Char.toLower) := by
  induction t with
  | nil => simp [matchSomewhere, hasSubCh, matchHere_lit]
  | cons c cs ih => simp [matchSomewhere, hasSubCh, matchHere_lit, ih]

/-- A metacharacter-free pattern parses to its literal tokens. -/
theorem parseToks_of_metaFree (cs : List Char)
    (h : ∀ c ∈ cs, ¬c = '.' ∧ ¬pcreMeta.contains c = true) :
    parseToks cs = some (cs.map RTok.lit) := by
  induction cs with
  | nil => simp [parseToks]
  | cons c cs ih =>
    obtain ⟨h1, h2⟩ := h c (List.mem_cons_self c cs)
    have h2' : c ∉ pcreMeta := by simpa using h2
    have hrest := ih (fun x hx => h x (List.mem_cons_of_mem c hx))
    simp [parseToks, parseTok, h1, h2', hrest]

/-- On metacharacter-free search strings the source's regex match is exactly
the spec's case-insensitive substring match. -/
theorem mongoRegexI_eq_specContainsCI (s t : String) (h : metaFree s = true) :
    mongoRegexI s t = specContainsCI s t := by
  have hparse : parseToks s.data = some (s.data.map RTok.lit) := by
    apply parseToks_of_metaFree
    intro c hc
    have := (List.all_eq_true.mp h) c hc
    simp only [Bool.and_eq_true, Bool.not_eq_true'] at this
    exact ⟨by simpa using this.1, by simpa using this.2⟩
  simp [mongoRegexI, hparse, matchSomewhere_lit, specContainsCI]

/-- Inversion of a successful create: the store gains exactly the new
document, which is available with null claim fields. -/
theorem create_donation_ok (db db' : DB) (req : DonationCreateRequest)
    (newId : String) (now : Nat) (d : Donation)
    (h : create_donation db req newId now = Except.ok (db', d)) :
    db' = { db with donations := db.donations ++ [(newId, d)] } ∧
      d.status = "available" ∧ d.claimed_by = none ∧ d.claimed_by_id = none := by
  unfold create_donation at h
  split at h
  · exact absurd h (by simp)
  · split at h
    · exact absurd h (by simp)
    · simp only [Except.ok.injEq, Prod.mk.injEq] at h
      obtain ⟨h1, h2⟩ := h
      subst h1
      refine ⟨?_, ?_, ?_, ?_⟩ <;> simp [← h2]

/-- Inversion of a successful update: either the request was empty and the
store is untouched, or the matched document was rewritten by the update. -/
theorem update_donation_ok (db db' : DB) (id : String)
    (req : DonationUpdateRequest) (now : Nat) (r : Option Donation)
    (h : update_donation db id req now = Except.ok (db', r)) :
    db' = db ∨
      db' =
        { db with
          donations := updateFirst id (applyUpdates req now) db.donations } := by
  unfold update_donation at h
  split at h
  · simp only [Except.ok.injEq, Prod.mk.injEq] at h
    exact Or.inl h.1.symm
  · split at h
    · exact absurd h (by simp)
    · simp only [Except.ok.injEq, Prod.mk.injEq] at h
      exact Or.inr h.1.symm

/-- Inversion of a successful claim: the checks passed and the store is the
claim write. -/
theorem claim_donation_ok (db db' : DB) (id : String) (req : ClaimRequest)
    (now : Nat) (r : Option Donation)
    (h : claim_donation db id req now = Except.ok (db', r)) :
    claimCheck db id req = none ∧ db' = claimWrite db id req now := by
  unfold claim_donation at h
  split at h
  · exact absurd h (by simp)
  · rename_i heq
    simp only [Except.ok.injEq, Prod.mk.injEq] at h
    exact ⟨heq, h.1.symm⟩

/-- Inversion of a successful deliver: the donation existed and the store is
the deliver write. -/
theorem mark_delivered_ok (db db' : DB) (id : String) (now : Nat)
    (r : Option Donation)
    (h : mark_delivered db id now = Except.ok (db', r)) :
    db' = deliverWrite db id now := by
  unfold mark_delivered at h
  split at h
  · exact absurd h (by simp)
  · simp only [Except.ok.injEq, Prod.mk.injEq] at h
    exact h.1.symm

/-- Each lifecycle operation preserves the claim-field invariant. -/
theorem step_preserves_inv (db db' : DB) (hstep : Step db db')
    (hinv : donationsInv db) : donationsInv db' := by
  cases hstep with
  | create req newId now d hfresh hok =>
    obtain ⟨hdb, hstat, hcb, hcbi⟩ := create_donation_ok _ _ _ _ _ _ hok
    subst hdb
    intro kd hkd
    simp only [List.mem_append, List.mem_singleton] at hkd
    rcases hkd with hkd | hkd
    · exact hinv kd hkd
    · subst hkd
      intro _
      exact ⟨hcb, hcbi⟩
  | update id req now r hok =>
    rcases update_donation_ok _ _ _ _ _ _ hok with hdb | hdb
    · subst hdb
      exact hinv
    · subst hdb
      intro kd hkd
      rcases mem_updateFirst _ _ _ _ hkd with hm | ⟨y, hy, hxy⟩
      · exact hinv kd hm
      · subst hxy
        intro hstat
        have hres := hinv y hy (by simpa [applyUpdates] using hstat)
        simpa [applyUpdates] using hres
  | claim id req now r hok =>
    obtain ⟨hchk, hdb⟩ := claim_donation_ok _ _ _ _ _ _ hok
    subst hdb
    intro kd hkd
    rcases mem_updateFirst _ _ _ _ hkd with hm | ⟨y, hy, hxy⟩
    · exact hinv kd hm
    · subst hxy
      intro hstat
      simp at hstat
  | deliver id now r hok =>
    have hdb := mark_delivered_ok _ _ _ _ _ hok
    subst hdb
    intro kd hkd
    rcases mem_updateFirst _ _ _ _ hkd with hm | ⟨y, hy, hxy⟩
    · exact hinv kd hm
    · subst hxy
      intro hstat
      simp at hstat

/-- Any reachable store keeps the claim-field invariant. -/
theorem reach_preserves_inv (db db' : DB) (h : Reach db db')
    (hinv : donationsInv db) : donationsInv db' := by
  induction h with
  | refl => exact hinv
  | tail db2 db3 hr hs ih => exact step_preserves_inv _ _ hs ih

/-- C1 (amended): for every donation record reachable by any sequence of
create, update, claim and deliver operations from a store with no
donations, if status is "available" then claimed_by and claimed_by_id are
both null. The converse direction of the original claim is false: deliver
on a never-claimed donation leaves both fields null with status
"delivered". -/
theorem available_donation_has_null_claim_fields (db db' : DB)
    (hstart : db.donations = []) (hreach : Reach db db') (id : String)
    (d : Donation) (hmem : (id, d) ∈ db'.donations)
    (hstat : d.status = "available") :
    d.claimed_by = none ∧ d.claimed_by_id = none := by
  have hinv : donationsInv db := by
    intro kd hkd
    rw [hstart] at hkd
    simp at hkd
  exact reach_preserves_inv db db' hreach hinv (id, d) hmem hstat

/-- C1 witness: the amended invariant evaluated on the concrete store
reached by one create call. -/
theorem available_donation_has_null_claim_fields_witness :
    dAvail.claimed_by = none ∧ dAvail.claimed_by_id = none :=
  available_donation_has_null_claim_fields db0 dbAvail rfl
    (Reach.tail _ _ _ (Reach.refl db0)
      (Step.create db0 dbAvail reqCreate ("d1") 10 dAvail rfl rfl))
    ("d1") dAvail (by decide) rfl

/-- C1 counterexample: create then deliver reaches a store whose only
donation has status "delivered" with both claim fields still null, so
"claimed_by and claimed_by_id are both null iff status is available" is
false at that record. -/
theorem nulls_iff_available_fails :
    Reach db0 dbDelivered ∧
      findDoc dbDelivered.donations ("d1") = some dDelivered ∧
      dDelivered.claimed_by = none ∧ dDelivered.claimed_by_id = none ∧
      decide (dDelivered.status = "available") = false := by
  have s1 : Step db0 dbAvail :=
    Step.create db0 dbAvail reqCreate ("d1") 10 dAvail rfl rfl
  have s2 : Step dbAvail dbDelivered :=
    Step.deliver dbAvail dbDelivered ("d1") 20 (some dDelivered) rfl
  exact ⟨Reach.tail _ _ _ (Reach.tail _ _ _ (Reach.refl db0) s1) s2,
    rfl, rfl, rfl, rfl⟩

/-- C2: claim's preconditions are checked in source order — claimer
missing or of wrong role gives invalidClaimerExc; with a valid claimer an
unresolvable donation id gives donationNotFoundExc; with both resolved a
non-available status gives notAvailableExc — and the three errors are
pairwise distinct. -/
theorem claim_checks_order_and_errors (db : DB) (id : String)
    (req : ClaimRequest) (now : Nat) :
    (claimerOk db req.user_id = false →
      claim_donation db id req now = Except.error invalidClaimerExc) ∧
    (claimerOk db req.user_id = true → findDoc db.donations id = none →
      claim_donation db id req now = Except.error donationNotFoundExc) ∧
    (∀ d, claimerOk db req.user_id = true →
      findDoc db.donations id = some d → decide (d.status = "available") = false →
      claim_donation db id req now = Except.error notAvailableExc) ∧
    decide (invalidClaimerExc = donationNotFoundExc) = false ∧
    decide (invalidClaimerExc = notAvailableExc) = false ∧
    decide (donationNotFoundExc = notAvailableExc) = false := by
  refine ⟨?_, ?_, ?_, rfl, rfl, rfl⟩
  · intro h
    simp [claim_donation, claimCheck, h]
  · intro h1 h2
    simp [claim_donation, claimCheck, h1, h2]
  · intro d h1 h2 h3
    have h3' : ¬d.status = "available" := of_decide_eq_false h3
    simp [claim_donation, claimCheck, h1, h2, h3']

/-- C2 witness: claiming the delivered donation with a valid NGO claimer
fails with the not-available error. -/
theorem claim_checks_order_and_errors_witness :
    claim_donation dbDelivered ("d1") ⟨("u1"), ("Helpers Inc"), ClaimRole.ngo⟩ 0 =
      Except.error notAvailableExc :=
  (claim_checks_order_and_errors dbDelivered ("d1")
    ⟨("u1"), ("Helpers Inc"), ClaimRole.ngo⟩ 0).2.2.1 dDelivered rfl rfl rfl

/-- C3 counterexample: an update call supplying no field at all returns the
record with updated_at unchanged (still 10, not the call's now = 45), so
"updated_at is refreshed to now — including the case where no field at all
is supplied" is false. -/
theorem empty_update_skips_updated_at :
    update_donation dbAvail ("d1") reqEmpty 45 =
      Except.ok (dbAvail, some dAvail) ∧
      decide (dAvail.updated_at = 45) = false := ⟨rfl, rfl⟩

/-- C3 (amended): on an existing donation, when at least one non-null field
is supplied, exactly the supplied fields among food_item, quantity,
pickup_address, expiry_time are applied (absent ones are left untouched)
and updated_at is refreshed to now; when no field at all is supplied the
record is returned unchanged and updated_at is not refreshed. -/
theorem update_applies_nonnull_fields (db : DB) (id : String)
    (req : DonationUpdateRequest) (now : Nat) (d : Donation)
    (hfound : findDoc db.donations id = some d) :
    (noUpdates req = true →
      update_donation db id req now = Except.ok (db, some d)) ∧
    (noUpdates req = false →
      ∃ db' d', update_donation db id req now = Except.ok (db', some d') ∧
        d'.food_item = req.food_item.getD d.food_item ∧
        d'.quantity = req.quantity.getD d.quantity ∧
        d'.pickup_address = req.pickup_address.getD d.pickup_address ∧
        d'.expiry_time = req.expiry_time.getD d.expiry_time ∧
        d'.updated_at = now) := by
  constructor
  · intro h
    simp [update_donation, h, hfound]
  · intro h
    refine ⟨{ db with
        donations := updateFirst id (applyUpdates req now) db.donations },
      applyUpdates req now d, ?_, rfl, rfl, rfl, rfl, rfl⟩
    simp [update_donation, h, findDoc_updateFirst_same, hfound]

/-- C3 witness: the amended update behaviour evaluated on the concrete
store, empty-request branch. -/
theorem update_applies_nonnull_fields_witness :
    update_donation dbAvail ("d1") reqEmpty 99 =
      Except.ok (dbAvail, some dAvail) :=
  (update_applies_nonnull_fields dbAvail ("d1") reqEmpty 99 dAvail rfl).1 rfl

/-- C4 counterexample: an update call on a non-existing id that supplies no
field at all does not fail — it returns ok with a null body — so "whatever
subset of fields is supplied, including none, the operation fails with
NotFound" is false. -/
theorem missing_id_empty_update_returns_null :
    findDoc db0.donations ("dX") = none ∧
      update_donation db0 ("dX") reqEmpty 7 = Except.ok (db0, none) :=
  ⟨rfl, rfl⟩

/-- C4 (amended): on a non-existing id, update fails with NotFound whenever
at least one non-null field is supplied; with no field supplied it returns
ok with a null record and no error. -/
theorem update_missing_id (db : DB) (id : String)
    (req : DonationUpdateRequest) (now : Nat)
    (hmiss : findDoc db.donations id = none) :
    (noUpdates req = false →
      update_donation db id req now = Except.error donationNotFoundExc) ∧
    (noUpdates req = true →
      update_donation db id req now = Except.ok (db, none)) := by
  constructor
  · intro h
    simp [update_donation, h, hmiss]
  · intro h
    simp [update_donation, h, hmiss]

/-- C4 witness: a one-field update on a missing id fails with the 404
donation-not-found error. -/
theorem update_missing_id_witness :
    update_donation db0 ("dX") reqFood 7 = Except.error donationNotFoundExc :=
  (update_missing_id db0 ("dX") reqFood 7 rfl).1 rfl

/-- With exclude_claimed true the built filter's status key is always
"available", whatever the other arguments. -/
theorem build_filter_status_exclude (st rid se : Option String) :
    (build_filter st rid true se).status = some ("available") := by
  cases st <;> cases rid <;> cases se <;>
    simp [build_filter] <;> split_ifs <;> rfl

/-- Membership in a list_donations result is membership in the store plus
the filter condition. -/
theorem mem_list_donations (db : DB) (st rid : Option String) (ec : Bool)
    (se : Option String) (d : Donation) :
    d ∈ list_donations db st rid ec se ↔
      d ∈ db.donations.map Prod.snd ∧
        matchesFilter (build_filter st rid ec se) d = true := by
  unfold list_donations
  rw [mem_sortByCreatedDesc, List.mem_filter]

/-- C5: when exclude_claimed is true the filter requires status
"available", overriding any supplied status value, and every donation the
list call returns has status "available". -/
theorem exclude_claimed_forces_available (db : DB) (status : Option String)
    (rid : Option String) (search : Option String) (d : Donation)
    (hmem : d ∈ list_donations db status rid true search) :
    (build_filter status rid true search).status = some ("available") ∧
      d.status = "available" := by
  refine ⟨build_filter_status_exclude status rid search, ?_⟩
  have hm := ((mem_list_donations db status rid true search d).mp hmem).2
  unfold matchesFilter at hm
  rw [build_filter_status_exclude status rid search] at hm
  simp only [Bool.and_eq_true, decide_eq_true_eq] at hm
  exact hm.1.1

/-- C5 witness: list(exclude_claimed=true, status="delivered") on the
store holding one available donation returns it, and the theorem gives
that its status is "available". -/
theorem exclude_claimed_forces_available_witness :
    (build_filter (some ("delivered")) none true none).status =
        some ("available") ∧
      dAvail.status = "available" :=
  exclude_claimed_forces_available dbAvail (some ("delivered")) none none
    dAvail (by decide)

/-- C6: a successful claim — claimer valid, donation found and available —
returns the donation with status "claimed", claimed_by the capitalized
role label ("Ngo" or "Society") followed by ": " and the user_name, and
claimed_by_id the claimer's user_id. -/
theorem claim_success_fields (db : DB) (id : String) (req : ClaimRequest)
    (now : Nat) (d : Donation) (hok : claimerOk db req.user_id = true)
    (hfound : findDoc db.donations id = some d)
    (hstat : d.status = "available") :
    claim_donation db id req now =
      Except.ok (claimWrite db id req now,
        some { d with
          status := "claimed"
          claimed_by := some (claimedLabel req)
          claimed_by_id := some req.user_id
          updated_at := now }) ∧
    claimedLabel req = (match req.role with
      | ClaimRole.ngo => "Ngo"
      | ClaimRole.society => "Society") ++ ": " ++ req.user_name := by
  constructor
  · have hkey : findDoc (claimWrite db id req now).donations id =
        some { d with
          status := "claimed"
          claimed_by := some (claimedLabel req)
          claimed_by_id := some req.user_id
          updated_at := now } := by
      simp [claimWrite, findDoc_updateFirst_same, hfound]
    simp [claim_donation, claimCheck, hok, hfound, hstat, hkey]
  · obtain ⟨uid, uname, role⟩ := req
    cases role <;> rfl

/-- C6 witness: claiming the available donation as NGO "Helpers Inc" gives
claimed_by "Ngo: Helpers Inc" and status "claimed". -/
theorem claim_success_fields_witness :
    claim_donation dbAvail ("d1") reqClaim 30 =
      Except.ok (dbClaimed, some dClaimed) :=
  (claim_success_fields dbAvail ("d1") reqClaim 30 dAvail rfl rfl rfl).1

/-- C7: deliver's only precondition is that the donation id resolves —
otherwise NotFound — and on any existing donation, whatever its current
status, it succeeds and sets status "delivered". -/
theorem deliver_from_any_status (db : DB) (id : String) (now : Nat) :
    (findDoc db.donations id = none →
      mark_delivered db id now = Except.error donationNotFoundExc) ∧
    (∀ d, findDoc db.donations id = some d →
      mark_delivered db id now =
        Except.ok (deliverWrite db id now,
          some { d with status := "delivered", updated_at := now })) := by
  constructor
  · intro h
    simp [mark_delivered, h]
  · intro d h
    have hkey : findDoc (deliverWrite db id now).donations id =
        some { d with status := "delivered", updated_at := now } := by
      simp [deliverWrite, findDoc_updateFirst_same, h]
    simp [mark_delivered, h, hkey]

/-- C7 witness: delivering the never-claimed available donation succeeds
and sets status "delivered". -/
theorem deliver_from_any_status_witness :
    mark_delivered dbAvail ("d1") 20 =
      Except.ok (dbDelivered, some dDelivered) :=
  (deliver_from_any_status dbAvail ("d1") 20).2 dAvail rfl

/-- C8: whatever fields an update call supplies, the status, claimed_by
and claimed_by_id of every stored donation are unchanged by the
operation. -/
theorem update_preserves_status_and_claims (db db' : DB) (id : String)
    (req : DonationUpdateRequest) (now : Nat) (r : Option Donation)
    (hok : update_donation db id req now = Except.ok (db', r)) (k : String) :
    Option.map (fun d => d.status) (findDoc db'.donations k) =
      Option.map (fun d => d.status) (findDoc db.donations k) ∧
    Option.map (fun d => d.claimed_by) (findDoc db'.donations k) =
      Option.map (fun d => d.claimed_by) (findDoc db.donations k) ∧
    Option.map (fun d => d.claimed_by_id) (findDoc db'.donations k) =
      Option.map (fun d => d.claimed_by_id) (findDoc db.donations k) := by
  rcases update_donation_ok _ _ _ _ _ _ hok with hdb | hdb
  · subst hdb
    exact ⟨rfl, rfl, rfl⟩
  · subst hdb
    by_cases hk : k = id
    · subst hk
      refine ⟨?_, ?_, ?_⟩ <;>
        simp [findDoc_updateFirst_same] <;>
        cases findDoc db.donations k <;> simp [applyUpdates]
    · have hother := findDoc_updateFirst_other id k (applyUpdates req now)
        db.donations hk
      refine ⟨?_, ?_, ?_⟩ <;> simp [hother]

/-- C8 witness: the food_item-only update left status and both claim
fields of the stored donation unchanged. -/
theorem update_preserves_status_and_claims_witness :
    Option.map (fun d => d.status) (findDoc dbFood.donations ("d1")) =
      Option.map (fun d => d.status) (findDoc dbAvail.donations ("d1")) ∧
    Option.map (fun d => d.claimed_by) (findDoc dbFood.donations ("d1")) =
      Option.map (fun d => d.claimed_by) (findDoc dbAvail.donations ("d1")) ∧
    Option.map (fun d => d.claimed_by_id) (findDoc dbFood.donations ("d1")) =
      Option.map (fun d => d.claimed_by_id) (findDoc dbAvail.donations ("d1")) :=
  update_preserves_status_and_claims dbAvail dbFood ("d1") reqFood 50
    (some dFood) rfl ("d1")

/-- Supplying a non-empty search string only adds the search key to the
filter built from the other arguments. -/
theorem build_filter_search (st rid : Option String) (ec : Bool) (s : String)
    (hs : s ≠ ("")) :
    build_filter st rid ec (some s) =
      { build_filter st rid ec none with search := some s } := by
  cases st <;> cases rid <;> cases ec <;> simp [build_filter, hs]

/-- Without a search argument the built filter has no search key. -/
theorem build_filter_none_search (st rid : Option String) (ec : Bool) :
    (build_filter st rid ec none).search = none := by
  cases st <;> cases rid <;> cases ec <;>
    simp [build_filter] <;> split_ifs <;> rfl

/-- Adding a search key to a filter without one conjoins the search
condition to the filter's condition. -/
theorem matchesFilter_with_search (f : DonationFilter) (hf : f.search = none)
    (s : String) (d : Donation) :
    matchesFilter { f with search := some s } d =
      (matchesFilter f d && searchMatches s d) := by
  unfold matchesFilter
  rw [hf]
  simp [Bool.and_assoc]

/-- C9 (amended): a list call with a non-empty search string returns a
donation iff the call without the search would return it and the search
string, read as a case-insensitive regular expression, matches somewhere in
at least one of food_item, restaurant_name, pickup_address (logical AND
composition); when the search string contains no regex metacharacter this
regex condition is exactly the case-insensitive substring condition of the
original claim. -/
theorem search_is_regex_and_composed (db : DB) (st rid : Option String)
    (ec : Bool) (s : String) (hs : s ≠ ("")) (d : Donation) :
    (d ∈ list_donations db st rid ec (some s) ↔
      d ∈ list_donations db st rid ec none ∧ searchMatches s d = true) ∧
    (metaFree s = true →
      searchMatches s d =
        (specContainsCI s d.food_item || specContainsCI s d.restaurant_name ||
          specContainsCI s d.pickup_address)) := by
  constructor
  · rw [mem_list_donations, mem_list_donations, build_filter_search st rid ec s hs,
      matchesFilter_with_search _ (build_filter_none_search st rid ec) s d]
    simp [Bool.and_eq_true, and_assoc]
  · intro hm
    unfold searchMatches
    rw [mongoRegexI_eq_specContainsCI s d.food_item hm,
      mongoRegexI_eq_specContainsCI s d.restaurant_name hm,
      mongoRegexI_eq_specContainsCI s d.pickup_address hm]

/-- C9 witness: searching "rice" (lowercase, metacharacter-free) finds the
donation whose food_item is "Rice". -/
theorem search_is_regex_and_composed_witness :
    dAvail ∈ list_donations dbAvail none none false (some ("rice")) :=
  ((search_is_regex_and_composed dbAvail none none false ("rice") (by decide)
    dAvail).1).mpr ⟨by decide, by decide⟩

/-- C9 counterexample: the search string "." — not a substring of any field
of the stored donation — still matches it, because the source passes the
search string to the store as a regular expression, not a substring test. -/
theorem regex_dot_not_substring :
    list_donations dbAvail none none false (some (".")) = [dAvail] ∧
      specContainsCI (".") dAvail.food_item = false ∧
      specContainsCI (".") dAvail.restaurant_name = false ∧
      specContainsCI (".") dAvail.pickup_address = false :=
  ⟨rfl, rfl, rfl, rfl⟩

/-- C10 (the code at the racing interleaving): claim_donation's check and
write are separate store operations, and the write matches on _id only.
When two claim calls for users u1 and u2 interleave as
check1-check2-write1-write2 on the same available donation, both checks
pass, both writes apply, and the second write silently overwrites the
first's claim fields — the write is not conditional on status, so both
callers are given success, not exactly one. -/
theorem concurrent_claims_both_pass :
    claimCheck dbAvail ("d1") reqClaim = none ∧
    claimCheck dbAvail ("d1") reqClaim2 = none ∧
    findDoc (claimWrite (claimWrite dbAvail ("d1") reqClaim 30) ("d1")
        reqClaim2 31).donations ("d1") =
      some { dAvail with
        status := "claimed"
        claimed_by := some ("Ngo: Second Helpers")
        claimed_by_id := some ("u2")
        updated_at := 31 } ∧
    (claimWrite (claimWrite dbAvail ("d1") reqClaim 30) ("d1") reqClaim2
        31).donations =
      (claimWrite dbAvail ("d1") reqClaim2 31).donations :=
  ⟨rfl, rfl, rfl, rfl⟩
